import Mathlib

/-!
Verification of the Sparda-Bank CSV statement parser
(`src/ofxstatement_spardabank/plugin.py`).

The Python source is shallowly embedded below.  Strings are modelled as
Lean `String`/`List Char`; the character classes of the Python regular
expressions (`\d`, `\s`, `\w`, `[A-Z]`) are modelled over their ASCII
content, which covers every character those patterns are applied to in
this code base.  The two regular expressions of the source are embedded
as follows:

* the tag pattern `\b([A-Z]{3,4}\+) ` used with `re.finditer` is
  hand-compiled into a direct scanner (`tagMatchAt`), including the
  greedy `{3,4}` backtracking and the word-boundary test;
* the card-payment pattern used with `re.search` is represented as a
  pattern AST (`cardRE`) interpreted by a backtracking matcher
  (`reMatch`) with Python's leftmost search / greedy / lazy / ordered
  alternation semantics and capture groups.

`decimal.Decimal`, `datetime.strptime`, `hashlib.sha1` and UTF-8
encoding are embedded directly (for `Decimal` the plain numeric-string
subset without exponents or special values, which is the form produced
by this exporter's amount columns).  The banking-identifier library
(`schwifty`) is an external collaborator and is modelled as an abstract
`BankRegistry` parameter (construct-or-fail interface).
-/

set_option maxRecDepth 8000

/-! ### Character classes (ASCII content of the Python classes) -/

/-- Class `\d` on the characters this parser feeds it: ASCII decimal digits. -/
def isPyDigit (c : Char) : Bool := '0' ≤ c && c ≤ '9'

/-- The literal class `[A-Z]`. -/
def isUpperAZ (c : Char) : Bool := 'A' ≤ c && c ≤ 'Z'

/-- Whitespace for `\s` / `str.strip`, ASCII part: space, tab, LF, VT, FF, CR. -/
def isPySpace (c : Char) : Bool :=
  c = ' ' || c = '\t' || c = '\n' || c = '\x0b' || c = '\x0c' || c = '\r'

/-- Word characters (`\w`) for the `\b` boundary test, ASCII part:
letters, digits and underscore. -/
def isWordChar (c : Char) : Bool :=
  isUpperAZ c || ('a' ≤ c && c ≤ 'z') || isPyDigit c || c = '_'

def digitVal (c : Char) : Nat := c.toNat - 48

/-! ### Small string helpers -/

/-- Python `str.strip()` on the character list. -/
def pyStripL (l : List Char) : List Char :=
  ((l.dropWhile isPySpace).reverse.dropWhile isPySpace).reverse

/-- Python `str.strip()`. -/
def pyStrip (s : String) : String := String.mk (pyStripL s.data)

/-- Python `value.replace(" ", "")`: delete every space character. -/
def removeSpaces (s : String) : String := String.mk (s.data.filter (· != ' '))

/-- Python substring slice `s[a:b]`. -/
def sliceL (l : List Char) (a b : Nat) : List Char := (l.take b).drop a

/-- Python `needle in haystack` on strings: substring containment. -/
def containsSub (needle haystack : List Char) : Bool :=
  (List.range (haystack.length + 1)).any (fun i => needle.isPrefixOf (haystack.drop i))

/-! ### `remove_superfluous_reference_whitespace`

```python
def remove_superfluous_reference_whitespace(value: str) -> str:
    i = 53
    while i < len(value):
        if value[i] == " ":
            value = value[:i] + value[i + 1 :]
        i += 54
    return value
```
-/

/-- The `while` loop, recursing on a step counter so that the
definition evaluates by kernel reduction.  The counter only bounds the
number of iterations; `remove_superfluous_reference_whitespace` passes
`length + 1`, which is never exhausted since `i` grows by 54 per
iteration while the string never grows (`rswLoop_eq` below proves the
result for every sufficient counter). -/
def rswLoop : Nat → Nat → List Char → List Char
  | 0, _, value => value
  | fuel + 1, i, value =>
    if i < value.length then
      rswLoop fuel (i + 54)
        (if value[i]? = some ' ' then value.take i ++ value.drop (i + 1) else value)
    else value

def remove_superfluous_reference_whitespace (value : String) : String :=
  String.mk (rswLoop (value.data.length + 1) 53 value.data)

/-- The line-normalizer as the spec phrases it: after an initial block of
53 characters, at every 54th character position of the progressively
shortened string remove the character there when it is a space.  Written
chunk-recursively; proved equal to the loop embedding below. -/
def rswSpecGo : List Char → List Char
  | [] => []
  | c :: t =>
    if c = ' ' then t.take 54 ++ rswSpecGo (t.drop 54)
    else c :: (t.take 53 ++ rswSpecGo (t.drop 53))
termination_by l => l.length
decreasing_by
  · simp only [List.length_drop, List.length_cons]; omega
  · simp only [List.length_drop, List.length_cons]; omega

def rswSpec (s : List Char) : List Char :=
  s.take 53 ++ rswSpecGo (s.drop 53)

/-! ### The tag pattern `\b([A-Z]{3,4}\+) `

Hand-compiled scanner for `re.finditer(r"\b([A-Z]{3,4}\+) ", reference)`.
A match at position `p` is: a word boundary, then greedily four (else
three) uppercase letters, a `'+'` (captured together with the letters as
group 1) and a space.  Greedy `{3,4}` backtracking collapses: if the
four-letter branch fails, the three-letter branch needs a `'+'` as the
fourth character, which in particular is not an uppercase letter.
-/

structure TagMatch where
  mstart : Nat
  mend : Nat
  tag : String
deriving DecidableEq, Repr

/-- Python `\b` at position `p`: word-ness differs between the previous
and the current character (out of range counts as non-word). -/
def wordBoundaryAt (s : List Char) (p : Nat) : Bool :=
  let cur := match s[p]? with | some c => isWordChar c | none => false
  let prev := if p = 0 then false else
    match s[p - 1]? with | some c => isWordChar c | none => false
  prev != cur

def tagMatchAt (s : List Char) (p : Nat) : Option TagMatch :=
  if wordBoundaryAt s p then
    match s[p]?, s[p+1]?, s[p+2]?, s[p+3]?, s[p+4]? with
    | some c0, some c1, some c2, some c3, some c4 =>
      if isUpperAZ c0 && isUpperAZ c1 && isUpperAZ c2 then
        if isUpperAZ c3 then
          -- greedy four-letter branch; on failure the three-letter
          -- branch would need c3 = '+', impossible for a letter
          if c4 = '+' && s[p+5]? = some ' ' then
            some ⟨p, p + 6, String.mk [c0, c1, c2, c3, '+']⟩
          else none
        else
          if c3 = '+' && c4 = ' ' then
            some ⟨p, p + 5, String.mk [c0, c1, c2, '+']⟩
          else none
      else none
    | _, _, _, _, _ => none
  else none

/-- The scan loop of `finditer`: try `tagMatchAt` at `p`, `p + 1`, …
until the end of the string.  The list argument is the remaining suffix
`s.drop p`, recursed on structurally in lockstep with `p` (at positions
past it no match is possible since the characters run out). -/
def findNextTagAux (s : List Char) : Nat → List Char → Option TagMatch
  | p, [] => tagMatchAt s p
  | p, _ :: rest =>
    match tagMatchAt s p with
    | some m => some m
    | none => findNextTagAux s (p + 1) rest

/-- First tag match at a position `≥ p`. -/
def findNextTagFrom (s : List Char) (p : Nat) : Option TagMatch :=
  findNextTagAux s p (s.drop p)

/-- Loop of `re.finditer`: all non-overlapping matches, scanning left to right,
continuing after the end of each match.  Recursion is on a step counter
(one step per found match); `finditerTag` passes `length + 1`, which is
never exhausted since every match ends past its ≥ 5-character span and
positions never exceed the length. -/
def finditerTagFrom (s : List Char) : Nat → Nat → List TagMatch
  | 0, _ => []
  | fuel + 1, p =>
    match findNextTagFrom s p with
    | some m => m :: finditerTagFrom s fuel (max (p + 1) m.mend)
    | none => []

def finditerTag (s : List Char) : List TagMatch := finditerTagFrom s (s.length + 1) 0

/-! ### Backtracking regex engine for the card-payment pattern

The pattern AST covers exactly the constructs of the card-payment
regular expression.  All repetitions in that pattern are over
single-character classes, so `starG`/`starL`/`plusG` take a character
class directly; `alt` is ordered (left first), `starG`/`plusG` are
greedy (longest first), `starL` is lazy (shortest first), as in Python.
-/

inductive RE where
  | eps : RE
  | lit : Char → RE
  | cls : (Char → Bool) → RE
  | cat : RE → RE → RE
  | alt : RE → RE → RE
  | opt : RE → RE
  | starG : (Char → Bool) → RE
  | starL : (Char → Bool) → RE
  | plusG : (Char → Bool) → RE
  | group : Nat → RE → RE

/-- Captured group spans: `(group index, start, end)`, most recent first. -/
def Caps := List (Nat × Nat × Nat)

/-- Length of the maximal run of class characters starting at `pos`. -/
def clsRun (p : Char → Bool) (s : List Char) (pos : Nat) : Nat :=
  ((s.drop pos).takeWhile p).length

/-- First success among continuations tried on a list of consumed counts. -/
def tryCounts (k : Nat → Option (Nat × Caps)) : List Nat → Option (Nat × Caps)
  | [] => none
  | n :: ns => match k n with
    | some r => some r
    | none => tryCounts k ns

/-- Backtracking matcher in continuation-passing style.  `k` receives
the position after this sub-pattern and the captures recorded so far. -/
def reMatch (r : RE) (s : List Char) (pos : Nat) (caps : Caps)
    (k : Nat → Caps → Option (Nat × Caps)) : Option (Nat × Caps) :=
  match r with
  | .eps => k pos caps
  | .lit c => match s[pos]? with
    | some c2 => if c2 = c then k (pos + 1) caps else none
    | none => none
  | .cls p => match s[pos]? with
    | some c2 => if p c2 then k (pos + 1) caps else none
    | none => none
  | .cat a b => reMatch a s pos caps (fun pos2 caps2 => reMatch b s pos2 caps2 k)
  | .alt a b => match reMatch a s pos caps k with
    | some r2 => some r2
    | none => reMatch b s pos caps k
  | .opt a => match reMatch a s pos caps k with
    | some r2 => some r2
    | none => k pos caps
  | .starG p => tryCounts (fun i => k (pos + i) caps) (List.range (clsRun p s pos + 1)).reverse
  | .starL p => tryCounts (fun i => k (pos + i) caps) (List.range (clsRun p s pos + 1))
  | .plusG p => tryCounts (fun i => k (pos + i) caps)
      (((List.range (clsRun p s pos + 1)).reverse).dropLast)
  | .group g a => reMatch a s pos caps (fun pos2 caps2 => k pos2 ((g, pos, pos2) :: caps2))

/-- Try to match the whole pattern anchored at `pos`; returns the end
position and the captures of the successful path. -/
def reMatchAt (r : RE) (s : List Char) (pos : Nat) : Option (Nat × Caps) :=
  reMatch r s pos [] (fun p c => some (p, c))

/-- Scan of `re.search`: leftmost successful start position, trying `p`,
`p + 1`, … up to and including the end of the string.  Returns
`(start, end, captures)`.  The list argument is the remaining suffix
`s.drop p`, recursed on structurally in lockstep with `p`. -/
def reSearchAux (r : RE) (s : List Char) : Nat → List Char → Option (Nat × Nat × Caps)
  | p, [] =>
    match reMatchAt r s p with
    | some (e, caps) => some (p, e, caps)
    | none => none
  | p, _ :: rest =>
    match reMatchAt r s p with
    | some (e, caps) => some (p, e, caps)
    | none => reSearchAux r s (p + 1) rest

def reSearch (r : RE) (s : List Char) : Option (Nat × Nat × Caps) :=
  reSearchAux r s 0 s

/-- The span of the most recent capture of group `g` (Python keeps the
last successful capture of a group). -/
def capSpan (caps : Caps) (g : Nat) : Option (Nat × Nat) :=
  match caps.find? (fun t => t.1 = g) with
  | some (_, a, b) => some (a, b)
  | none => none

/-- Value of `match.group(g)` as a string (empty when the group is unset, which
does not occur for the card pattern: every group is on the mandatory
path). -/
def capStr (s : List Char) (caps : Caps) (g : Nat) : String :=
  match capSpan caps g with
  | some (a, b) => String.mk (sliceL s a b)
  | none => ""

/-! ### The card-payment pattern

```
(?P<card_payment_reference>.*)
(?P<card_payment_datetime>\d{2}\.\d{2}\.\d{4} \d{2}\.\d{2}\.\d{2}) 
(?:OFFLIN|\d{6}) 
(?P<card_payment_currency>[A-Z]{3})\s+
(?P<card_payment_amount>-?\d+,\d{2}) 
EC\s+[A-Z]*\d+\s*\d*\s*
PAN (?P<pan>\d+) 
(?P<recipient>.*?)\d{3} 
(?P<card_expiration>\d{2}/\d{4}) 
(?P<type>GIROCARD|nicht GIRO) 
(?P<card_data_entry_method>[A-Z]{4})/
(?P<card_payment_auth_method>[A-Z]{4})/+\d*
```
(one regex; shown here split at the source's string-literal seams).
-/

/-- Dot (no DOTALL): any character except a newline. -/
def dotC (c : Char) : Bool := c != '\n'

/-- Concatenation of a list of patterns. -/
def reSeq (l : List RE) : RE := l.foldr RE.cat RE.eps

/-- A literal string. -/
def reStr (cs : String) : RE := reSeq (cs.data.map RE.lit)

/-- Counted repetition `r{n}`: exactly `n` copies. -/
def reN (n : Nat) (r : RE) : RE := reSeq (List.replicate n r)

def digitRE : RE := RE.cls isPyDigit
def upperRE : RE := RE.cls isUpperAZ

/-- Pattern `\d{2}\.\d{2}\.\d{4} \d{2}\.\d{2}\.\d{2}` (the datetime group). -/
def cardDatetimeRE : RE :=
  reSeq [reN 2 digitRE, RE.lit '.', reN 2 digitRE, RE.lit '.', reN 4 digitRE,
    RE.lit ' ', reN 2 digitRE, RE.lit '.', reN 2 digitRE, RE.lit '.', reN 2 digitRE]

/-- The card-payment pattern with its ten capture groups, numbered in
order of appearance (the `(?: )` group is non-capturing). -/
def cardRE : RE :=
  reSeq [
    RE.group 1 (RE.starG dotC),
    RE.group 2 cardDatetimeRE,
    RE.lit ' ',
    RE.alt (reStr "OFFLIN") (reN 6 digitRE),
    RE.lit ' ',
    RE.group 3 (reN 3 upperRE),
    RE.plusG isPySpace,
    RE.group 4 (reSeq [RE.opt (RE.lit '-'), RE.plusG isPyDigit, RE.lit ',', reN 2 digitRE]),
    RE.lit ' ',
    reStr "EC",
    RE.plusG isPySpace,
    RE.starG isUpperAZ,
    RE.plusG isPyDigit,
    RE.starG isPySpace,
    RE.starG isPyDigit,
    RE.starG isPySpace,
    reStr "PAN ",
    RE.group 5 (RE.plusG isPyDigit),
    RE.lit ' ',
    RE.group 6 (RE.starL dotC),
    reN 3 digitRE,
    RE.lit ' ',
    RE.group 7 (reSeq [reN 2 digitRE, RE.lit '/', reN 4 digitRE]),
    RE.lit ' ',
    RE.group 8 (RE.alt (reStr "GIROCARD") (reStr "nicht GIRO")),
    RE.lit ' ',
    RE.group 9 (reN 4 upperRE),
    RE.lit '/',
    RE.group 10 (reN 4 upperRE),
    RE.plusG (· = '/'),
    RE.starG isPyDigit]

/-- The group names, in group-number order 1..10 — the iteration order
of `match.groupdict().items()`. -/
def cardGroupNames : List String :=
  ["card_payment_reference", "card_payment_datetime", "card_payment_currency",
   "card_payment_amount", "pan", "recipient", "card_expiration", "type",
   "card_data_entry_method", "card_payment_auth_method"]

/-! ### `parse_default_field` -/

/-- The transaction-type suffix list, in the source's order. -/
def txnTypeSuffixes : List String :=
  ["SEPA-ÜBERWEISUNG", "SEPA-LOHN/GEHALT", "SEPA-BASISLASTSCHRIFT"]

/-- The `for suffix in [...]` loop: first suffix the value ends with
yields `("", [("recipient", value[:-len(suffix)]), ("type", suffix)])`. -/
def pdfSuffixLoop (value : List Char) : List String → Option (String × List (String × String))
  | [] => none
  | sfx :: rest =>
    if sfx.data.isSuffixOf value then
      some ("", [("recipient", String.mk (value.take (value.length - sfx.length))),
                 ("type", sfx)])
    else pdfSuffixLoop value rest

/-- Items of `match.groupdict()` for the card pattern. -/
def cardGroupItems (s : List Char) (caps : Caps) : List (String × String) :=
  cardGroupNames.enum.map (fun p => (p.2, capStr s caps (p.1 + 1)))

/--
```python
def parse_default_field(value):
    for suffix in [...]:
        if value.endswith(suffix):
            return ("", [("recipient", value[: -len(suffix)]), ("type", suffix)])
    if match := re.search(r"...", value):
        return (value[: match.span()[0]], list(match.groupdict().items()))
    return (value, [])
```
-/
def parse_default_field (value : String) : String × List (String × String) :=
  match pdfSuffixLoop value.data txnTypeSuffixes with
  | some r => r
  | none =>
    match reSearch cardRE value.data with
    | some (b, _, caps) => (String.mk (value.data.take b), cardGroupItems value.data caps)
    | none => (value, [])

/-! ### `parse_reference_fields` -/

/-- The generator loop of `parse_reference_fields`: `field` is the tag
owning the segment that starts at `start`; each tag match closes the
previous segment (value = text up to the match start, stripped) and
opens a new one labelled by capture group 1.  While the current tag is
`default`, the segment value is first run through
`parse_default_field`, whose derived fields are yielded before the
`(field, value)` pair. -/
def prfGo (reference : List Char) (field : String) (start : Nat) :
    List TagMatch → List (String × String)
  | [] =>
    let value := String.mk (pyStripL (sliceL reference start reference.length))
    if field = "default" then
      let r := parse_default_field value
      r.2 ++ [(field, r.1)]
    else [(field, value)]
  | m :: ms =>
    let value := String.mk (pyStripL (sliceL reference start m.mstart))
    (if field = "default" then
      let r := parse_default_field value
      r.2 ++ [(field, r.1)]
    else [(field, value)]) ++ prfGo reference m.tag m.mend ms

def parse_reference_fields (reference : String) : List (String × String) :=
  prfGo reference.data "default" 0 (finditerTag reference.data)

/-! ### `datetime.strptime` for the two formats of the source

`"%d.%m.%Y"` (`StatementParser.parse_datetime` with the configured
`date_format`) and `"%d.%m.%Y %H.%M.%S"` (card-payment datetime).
CPython's `_strptime` matches each directive with a regex —
`%d : 3[01]|[12]\d|0[1-9]|[1-9]`, `%m : 1[0-2]|0[1-9]|[1-9]`,
`%Y : \d{4}`, `%H : 2[0-3]|[0-1]\d|\d`, `%M : [0-5]\d|\d`,
`%S : 6[0-1]|[0-5]\d|\d` — requires the whole string to be consumed,
and then the `datetime` constructor validates the day against the month
length and the seconds against `0..59`.  The constant `Europe/Berlin`
`tzinfo` attached by `parse_datetime` carries no information and is not
modelled. -/

structure DateTime where
  year : Nat
  month : Nat
  day : Nat
  hour : Nat
  minute : Nat
  second : Nat
deriving DecidableEq, Repr

/-- A two-digit-else-one-digit numeric directive: the two-digit branch
(validated by `p2`) is tried first together with the rest of the
format; on failure the one-digit branch (validated by `p1`) is tried —
exactly the ordered alternation of the `_strptime` regexes. -/
def num21 (p2 p1 : Nat → Bool) (cs : List Char)
    (k : Nat → List Char → Option DateTime) : Option DateTime :=
  match
    (match cs with
     | c1 :: c2 :: rest =>
       if isPyDigit c1 && isPyDigit c2 then
         let n := digitVal c1 * 10 + digitVal c2
         if p2 n then k n rest else none
       else none
     | _ => none)
  with
  | some r => some r
  | none =>
    match cs with
    | c1 :: rest =>
      if isPyDigit c1 then
        let n := digitVal c1
        if p1 n then k n rest else none
      else none
    | _ => none

/-- Directive `%Y`: exactly four digits. -/
def num4 (cs : List Char) (k : Nat → List Char → Option DateTime) : Option DateTime :=
  match cs with
  | c1 :: c2 :: c3 :: c4 :: rest =>
    if isPyDigit c1 && isPyDigit c2 && isPyDigit c3 && isPyDigit c4 then
      k (digitVal c1 * 1000 + digitVal c2 * 100 + digitVal c3 * 10 + digitVal c4) rest
    else none
  | _ => none

/-- A literal character of the format string. -/
def litC (c : Char) (cs : List Char) (k : List Char → Option DateTime) : Option DateTime :=
  match cs with
  | c1 :: rest => if c1 = c then k rest else none
  | [] => none

def isLeapYear (y : Nat) : Bool := (y % 4 = 0 && y % 100 ≠ 0) || y % 400 = 0

def daysInMonth (y m : Nat) : Nat :=
  if m = 2 then (if isLeapYear y then 29 else 28)
  else if m = 4 || m = 6 || m = 9 || m = 11 then 30
  else 31

/-- The `datetime(...)` constructor's validation (`MINYEAR = 1`,
day against month length, second `0..59`; hour/minute are already
bounded by the directive regexes). -/
def mkDateTime (y mo d h mi s : Nat) : Option DateTime :=
  if 1 ≤ y && d ≤ daysInMonth y mo && s ≤ 59 then
    some ⟨y, mo, d, h, mi, s⟩
  else none

def dayP2 (n : Nat) : Bool := 1 ≤ n && n ≤ 31
def dayP1 (n : Nat) : Bool := 1 ≤ n && n ≤ 9
def monP2 (n : Nat) : Bool := 1 ≤ n && n ≤ 12
def monP1 (n : Nat) : Bool := 1 ≤ n && n ≤ 9
def hourP2 (n : Nat) : Bool := n ≤ 23
def minP2 (n : Nat) : Bool := n ≤ 59
def secP2 (n : Nat) : Bool := n ≤ 61
def anyP1 (n : Nat) : Bool := n ≤ 9

/-- Python `datetime.strptime(value, "%d.%m.%Y")`. -/
def strptimeDMY (value : String) : Option DateTime :=
  num21 dayP2 dayP1 value.data (fun d cs =>
    litC '.' cs (fun cs =>
      num21 monP2 monP1 cs (fun mo cs =>
        litC '.' cs (fun cs =>
          num4 cs (fun y cs =>
            if cs = [] then mkDateTime y mo d 0 0 0 else none)))))

/-- Python `datetime.strptime(value, "%d.%m.%Y %H.%M.%S")`. -/
def strptimeCard (value : String) : Option DateTime :=
  num21 dayP2 dayP1 value.data (fun d cs =>
    litC '.' cs (fun cs =>
      num21 monP2 monP1 cs (fun mo cs =>
        litC '.' cs (fun cs =>
          num4 cs (fun y cs =>
            litC ' ' cs (fun cs =>
              num21 hourP2 anyP1 cs (fun h cs =>
                litC '.' cs (fun cs =>
                  num21 minP2 anyP1 cs (fun mi cs =>
                    litC '.' cs (fun cs =>
                      num21 secP2 anyP1 cs (fun s cs =>
                        if cs = [] then mkDateTime y mo d h mi s else none)))))))))))

/-- Left-pad a numeral with zeros. -/
def padZ (w : Nat) (n : Nat) : String :=
  let r := Nat.repr n
  String.mk (List.replicate (w - r.length) '0') ++ r

/-- Python `value_date.strftime("%Y%m%d")`. -/
def fmtYMD (dt : DateTime) : String := padZ 4 dt.year ++ padZ 2 dt.month ++ padZ 2 dt.day

/-! ### `decimal.Decimal` (plain numeric strings)

`parse_decimal` feeds `Decimal` the column text with all `'.'` removed
and `','` turned into `'.'`.  We model the plain finite numeric-string
grammar `ws* sign? (digits ['.' digits*] | '.' digits) ws*` (no
exponents, no `Infinity`/`NaN` — forms this exporter never produces;
such inputs are treated as a parse failure).  A `Decimal` stores sign,
coefficient (leading zeros dropped, `0` kept as a single digit) and
exponent `= -(number of fraction digits)`; `str` follows
`_pydecimal.__str__`. -/

structure PyDecimal where
  sign : Bool
  coeff : Nat
  exp : Int
deriving DecidableEq, Repr

def natOfDigits (l : List Char) : Nat := l.foldl (fun n c => n * 10 + digitVal c) 0

def pyDecimalOfString (cs : List Char) : Option PyDecimal :=
  let cs := pyStripL cs
  let (sign, rest) :=
    match cs with
    | '-' :: r => (true, r)
    | '+' :: r => (false, r)
    | r => (false, r)
  let ip := rest.takeWhile isPyDigit
  match rest.drop ip.length with
  | [] => if ip = [] then none else some ⟨sign, natOfDigits ip, 0⟩
  | '.' :: fr =>
    let fd := fr.takeWhile isPyDigit
    if fd.length = fr.length && (ip ≠ [] || fd ≠ []) then
      some ⟨sign, natOfDigits (ip ++ fd), -(fd.length : Int)⟩
    else none
  | _ => none

/-- Python `Decimal(value.replace(".", "").replace(",", "."))`. -/
def parse_decimal (value : String) : Option PyDecimal :=
  pyDecimalOfString ((value.data.filter (· ≠ '.')).map (fun c => if c = ',' then '.' else c))

/-- Python `str(Decimal)` (`_pydecimal.__str__`, non-engineering). -/
def pyDecimalStr (d : PyDecimal) : String :=
  let digits := (Nat.repr d.coeff).data
  let sign := if d.sign then "-" else ""
  let leftdigits : Int := d.exp + digits.length
  let dotplace : Int := if d.exp ≤ 0 && leftdigits > -6 then leftdigits else 1
  let intfrac : String × String :=
    if dotplace ≤ 0 then
      ("0", "." ++ String.mk (List.replicate (-dotplace).toNat '0') ++ String.mk digits)
    else if dotplace ≥ digits.length then
      (String.mk digits ++ String.mk (List.replicate (dotplace.toNat - digits.length) '0'), "")
    else
      (String.mk (digits.take dotplace.toNat), "." ++ String.mk (digits.drop dotplace.toNat))
  let expStr := if leftdigits = dotplace then "" else
    "E" ++ (if 0 ≤ leftdigits - dotplace then "+" else "") ++ Int.repr (leftdigits - dotplace)
  sign ++ intfrac.1 ++ intfrac.2 ++ expStr

/-- Comparison `amount > 0.0`: a `Decimal` is numerically positive iff it is
unsigned with a non-zero coefficient. -/
def pyDecimalPos (d : PyDecimal) : Bool := !d.sign && d.coeff ≠ 0

/-! ### UTF-8 and SHA-1 (`.encode("utf8")`, `hashlib.new("sha1")`) -/

/-- UTF-8 encoding of one code point. -/
def utf8Char (c : Char) : List Nat :=
  let n := c.toNat
  if n < 0x80 then [n]
  else if n < 0x800 then
    [0xC0 ||| (n >>> 6), 0x80 ||| (n &&& 0x3F)]
  else if n < 0x10000 then
    [0xE0 ||| (n >>> 12), 0x80 ||| ((n >>> 6) &&& 0x3F), 0x80 ||| (n &&& 0x3F)]
  else
    [0xF0 ||| (n >>> 18), 0x80 ||| ((n >>> 12) &&& 0x3F),
     0x80 ||| ((n >>> 6) &&& 0x3F), 0x80 ||| (n &&& 0x3F)]

def utf8Bytes (l : List Char) : List Nat := l.flatMap utf8Char

/-- Rotate a 32-bit word left by `k`. -/
def rotl (k n : Nat) : Nat := ((n <<< k) ||| (n >>> (32 - k))) % 4294967296

def sha1F (i b c d : Nat) : Nat :=
  if i < 20 then (b &&& c) ||| ((b ^^^ 0xFFFFFFFF) &&& d)
  else if i < 40 then b ^^^ c ^^^ d
  else if i < 60 then (b &&& c) ||| (b &&& d) ||| (c &&& d)
  else b ^^^ c ^^^ d

def sha1K (i : Nat) : Nat :=
  if i < 20 then 0x5A827999
  else if i < 40 then 0x6ED9EBA1
  else if i < 60 then 0x8F1BBCDC
  else 0xCA62C1D6

/-- Split the padded message into 64-byte blocks.  Recursion is on a
step counter set to the length, which is never exhausted since every
step consumes 64 bytes of a non-empty remainder. -/
def chunks64F : Nat → List Nat → List (List Nat)
  | 0, _ => []
  | fuel + 1, l => if l = [] then [] else l.take 64 :: chunks64F fuel (l.drop 64)

def chunks64 (l : List Nat) : List (List Nat) := chunks64F l.length l

/-- Big-endian 32-bit words of one 64-byte block. -/
def blockWords (block : List Nat) : List Nat :=
  (List.range 16).map (fun i =>
    (block.getD (4 * i) 0) <<< 24 ||| (block.getD (4 * i + 1) 0) <<< 16 |||
    (block.getD (4 * i + 2) 0) <<< 8 ||| block.getD (4 * i + 3) 0)

/-- Extend 16 schedule words to 80. -/
def sha1Extend (w : List Nat) : Nat → List Nat
  | 0 => w
  | k + 1 =>
    let n := w.length
    sha1Extend (w ++ [rotl 1 ((w.getD (n - 3) 0) ^^^ (w.getD (n - 8) 0) ^^^
      (w.getD (n - 14) 0) ^^^ (w.getD (n - 16) 0))]) k

/-- The 80-round compression of one block. -/
def sha1Compress (h0 h1 h2 h3 h4 : Nat) (block : List Nat) : Nat × Nat × Nat × Nat × Nat :=
  let w := sha1Extend (blockWords block) 64
  let st := (List.range 80).foldl
    (fun st i =>
      match st with
      | (a, b, c, d, e) =>
        ((rotl 5 a + sha1F i b c d + e + sha1K i + w.getD i 0) % 4294967296,
         a, rotl 30 b, c, d))
    (h0, h1, h2, h3, h4)
  match st with
  | (a, b, c, d, e) =>
    ((h0 + a) % 4294967296, (h1 + b) % 4294967296, (h2 + c) % 4294967296,
     (h3 + d) % 4294967296, (h4 + e) % 4294967296)

/-- Big-endian bytes of a number, fixed width. -/
def beBytes (w n : Nat) : List Nat :=
  (List.range w).map (fun i => (n >>> (8 * (w - 1 - i))) &&& 0xFF)

/-- SHA-1 padding: `0x80`, zeros to 56 mod 64, 64-bit big-endian bit length. -/
def sha1Pad (msg : List Nat) : List Nat :=
  msg ++ [0x80] ++ List.replicate ((120 - (msg.length + 1) % 64) % 64) 0 ++
    beBytes 8 (8 * msg.length)

def hexChar (n : Nat) : Char :=
  if n < 10 then Char.ofNat (48 + n) else Char.ofNat (87 + n)

/-- Lowercase hex, eight digits per 32-bit word. -/
def hex8 (n : Nat) : String :=
  String.mk ((List.range 8).map (fun i => hexChar ((n >>> (4 * (7 - i))) &&& 0xF)))

/-- Python `hashlib.sha1(bytes).hexdigest()`. -/
def sha1Hex (msg : List Nat) : String :=
  let final := (chunks64 (sha1Pad msg)).foldl
    (fun st block =>
      match st with
      | (h0, h1, h2, h3, h4) => sha1Compress h0 h1 h2 h3 h4 block)
    (0x67452301, 0xEFCDAB89, 0x98BADCFE, 0x10325476, 0xC3D2E1F0)
  match final with
  | (h0, h1, h2, h3, h4) => hex8 h0 ++ hex8 h1 ++ hex8 h2 ++ hex8 h3 ++ hex8 h4

/-! ### Statement model and `parse_record`

`ofxstatement.statement.StatementLine` and the `schwifty` IBAN/BIC
library are external collaborators.  `schwifty` is modelled as an
abstract `BankRegistry` (construct-or-fail, BIC derivable from an IBAN,
optional branch code); IBAN and BIC objects are `str` subclasses in
`schwifty`, so parsed identifiers are carried as strings and the
truthiness test `if iban and bic:` is a non-emptiness test.  The
statement line's initial (library-default) transaction type is a
parameter `initTrntype`. -/

structure Row where
  buchungstag : String
  wertstellungstag : String
  verwendungszweck : String
  umsatz : String
  waehrung : String
deriving DecidableEq, Repr

structure BankAccount where
  bank_id : String
  acct_id : String
  branch_id : Option String
deriving DecidableEq, Repr

structure StatementLine where
  date : DateTime
  date_user : DateTime
  memo : String
  amount : PyDecimal
  currency : String
  id : String
  bank_account_to : Option BankAccount
  check_no : Option String
  trntype : Option String
  payee : Option String
deriving DecidableEq, Repr

/-- The behavioural interface of the `schwifty` banking-identifier
library: construct-or-fail parsing of IBAN/BIC strings, the
`iban.bic` derivation (may be absent), and `bic.branch_code`
(may be absent or empty). -/
structure BankRegistry where
  ibanParse : String → Option String
  bicParse : String → Option String
  ibanBic : String → Option String
  branchCode : String → Option String

/-- A registry on which every lookup fails (used to instantiate the
abstract collaborator in concrete evaluations). -/
def noRegistry : BankRegistry := ⟨fun _ => none, fun _ => none, fun _ => none, fun _ => none⟩

/-- Lookup `dict(pairs)[k]`: the last binding of `k` wins. -/
def dictGet (fields : List (String × String)) (k : String) : Option String :=
  (fields.reverse.find? (fun p => p.1 = k)).map (fun p => p.2)

/-- Test `if value := fields.get(k):` — the walrus test also rejects the
empty string (falsy). -/
def getTruthy (fields : List (String × String)) (k : String) : Option String :=
  match dictGet fields k with
  | some v => if v = "" then none else some v
  | none => none

/--
```python
def find_transaction_type(self, haystack):
    for needle, transaction_type in [...]:
        if needle in haystack:
            return transaction_type
```
-/
def find_transaction_type (haystack : String) : Option String :=
  if containsSub "SEPA-ÜBERWEISUNG".data haystack.data then some "XFER"
  else if containsSub "SEPA-LOHN/GEHALT".data haystack.data then some "XFER"
  else if containsSub "SEPA-BASISLASTSCHRIFT".data haystack.data then some "DIRECTDEBIT"
  else if containsSub "GIROCARD".data haystack.data then some "POS"
  else if containsSub "nicht GIRO".data haystack.data then some "POS"
  else none

/-- The normalized reference of a row
(`remove_superfluous_reference_whitespace(line["Verwendungszweck"])`). -/
def referenceOf (row : Row) : String :=
  remove_superfluous_reference_whitespace row.verwendungszweck

/-- Fields `dict(self.parse_reference_fields(reference))`, kept as the yielded
association list (lookups take the last binding). -/
def fieldsOf (row : Row) : List (String × String) :=
  parse_reference_fields (referenceOf row)

/-- The IBAN/BIC block of `parse_record`: decode the IBAN field (spaces
stripped; decode failure only logs), then the BIC field if present
(failure only logs, falling back to the IBAN-derived BIC), and build the
counterparty account when both are truthy, copying a truthy branch
code. -/
def bankAccountTo (reg : BankRegistry) (fields : List (String × String)) : Option BankAccount :=
  match getTruthy fields "IBAN+" with
  | none => none
  | some v0 =>
    match reg.ibanParse (removeSpaces v0) with
    | none => none
    | some iban =>
      let bic0 : Option String :=
        match getTruthy fields "BIC+" with
        | some bv => reg.bicParse (removeSpaces bv)
        | none => none
      let bic : Option String :=
        match bic0 with
        | some b => some b
        | none => reg.ibanBic iban
      match bic with
      | none => none
      | some b =>
        if iban ≠ "" && b ≠ "" then
          some { bank_id := b, acct_id := iban,
                 branch_id :=
                   match reg.branchCode b with
                   | some br => if br = "" then none else some br
                   | none => none }
        else none

/-- Embedding of `SpardaBankParser.parse_record`.  Returns `none` when one of the
date/amount column parses raises (which in Python aborts the row). -/
def parse_record (reg : BankRegistry) (initTrntype : Option String) (line : Row) :
    Option StatementLine :=
  match strptimeDMY line.buchungstag, strptimeDMY line.wertstellungstag,
        parse_decimal line.umsatz with
  | some booking_date, some value_date, some amount =>
    let reference := remove_superfluous_reference_whitespace line.verwendungszweck
    let currency := line.waehrung
    let ident := fmtYMD value_date ++
      sha1Hex (utf8Bytes (reference ++ " " ++ pyDecimalStr amount ++ " " ++ currency).data)
    let fields := parse_reference_fields reference
    let memo := ["SVWZ+", "card_payment_reference"].foldl
      (fun m k => match getTruthy fields k with | some v => v | none => m) reference
    let date_user :=
      match getTruthy fields "card_payment_datetime" with
      | some v =>
        match strptimeCard v with
        | some dt => dt
        | none => booking_date
      | none => booking_date
    let trntype0 :=
      match getTruthy fields "type" with
      | some v => find_transaction_type v
      | none => initTrntype
    let trntype :=
      match trntype0 with
      | none => some (if pyDecimalPos amount then "CREDIT" else "DEBIT")
      | some t => some t
    some { date := value_date
           date_user := date_user
           memo := memo
           amount := amount
           currency := currency
           id := ident
           bank_account_to := bankAccountTo reg fields
           check_no := getTruthy fields "EREF+"
           trntype := trntype
           payee := getTruthy fields "recipient" }
  | _, _, _ => none

/-- The not-yet-executed marker of `split_records`. -/
def notExecutedMarker : String := "* noch nicht ausgeführte Umsätze"

/--
```python
def split_records(self):
    yield from (row for row in self.reader
                if row["Buchungstag"] != "* noch nicht ausgeführte Umsätze")
```
-/
def split_records (rows : List Row) : List Row :=
  rows.filter (fun row => row.buchungstag ≠ notExecutedMarker)

/-- The identifier exactly as the spec sentence words it: value date as
`YYYYMMDD`, then the SHA-1 hex digest of the UTF-8 bytes of the
*trimmed* pre-override memo, the amount's default decimal string form
and the currency symbol joined by single spaces.  (Definition follows
the spec's words, for comparison with the source embedding.) -/
def spec_identifier (value_date : DateTime) (memo : String) (amount : PyDecimal)
    (currency : String) : String :=
  fmtYMD value_date ++
    sha1Hex (utf8Bytes (pyStrip memo ++ " " ++ pyDecimalStr amount ++ " " ++ currency).data)

/-! ### Concrete rows used to evaluate the theorems -/

/-- A row whose reference holds both a card-payment block (so
`card_payment_reference` is decoded, value `"K "`) and a `SVWZ+` tag
(REF value `"Zweck"`). -/
def c1Row : Row := ⟨"01.01.2024", "02.01.2024",
  "K 01.02.2024 10.20.30 OFFLIN EUR 1,00 EC A1 PAN 1 R111 01/2026 GIROCARD ABCD/EFGH/ SVWZ+ Zweck",
  "1,00", "EUR"⟩

/-- A plain row with distinct booking (01.01.) and value (02.01.) dates. -/
def c2Row : Row := ⟨"01.01.2024", "02.01.2024", "abc", "1,00", "EUR"⟩

/-- A row whose purpose text carries a leading space. -/
def c3Row : Row := ⟨"01.01.2024", "02.01.2024", " x", "1,00", "EUR"⟩

/-- Same value date, memo, amount and currency as `c3Row`, different
booking date. -/
def c3bRow : Row := ⟨"03.01.2024", "02.01.2024", " x", "1,00", "EUR"⟩

/-- A row with an undecodable IBAN field and a card-payment datetime
(`99.99.2024 10.20.30`) that matches the card pattern but fails
`strptime`. -/
def c6Row : Row := ⟨"01.01.2024", "02.01.2024",
  "K 99.99.2024 10.20.30 OFFLIN EUR 1,00 EC A1 PAN 1 R111 01/2026 GIROCARD ABCD/EFGH/ IBAN+ DE99",
  "1,00", "EUR"⟩

/-- A type-less row with a positive amount. -/
def c9aRow : Row := ⟨"01.01.2024", "02.01.2024", "abc", "1,00", "EUR"⟩

/-- A type-less row with amount exactly zero. -/
def c9bRow : Row := ⟨"01.01.2024", "02.01.2024", "abc", "0,00", "EUR"⟩

/-! ## Theorems -/

/-! ### The line normalizer (claim C7) -/

/-- The loop embedding agrees with the chunk-recursive description:
everything before position `i` is kept, and from `i` on the string is
processed boundary-by-boundary with stride 54 — for every sufficient
step counter. -/
theorem rswLoop_eq (fuel i : Nat) (s : List Char) (hf : s.length ≤ i + 54 * fuel) :
    rswLoop fuel i s = s.take i ++ rswSpecGo (s.drop i) := by
  induction fuel generalizing i s with
  | zero =>
    have hlen : s.length ≤ i := by omega
    rw [rswLoop, List.take_of_length_le hlen, List.drop_eq_nil_of_le hlen]
    simp [rswSpecGo]
  | succ fuel ih =>
    rw [rswLoop]
    by_cases h : i < s.length
    · rw [if_pos h]
      have hcons : s.drop i = s[i] :: s.drop (i + 1) := List.drop_eq_getElem_cons h
      rw [hcons, rswSpecGo]
      by_cases hsp : s[i] = ' '
      · have hget : s[i]? = some ' ' := by rw [List.getElem?_eq_getElem h, hsp]
        rw [if_pos hsp, if_pos hget]
        have hs' : (s.take i ++ s.drop (i + 1)).length ≤ i + 54 + 54 * fuel := by
          simp only [List.length_append, List.length_take, List.length_drop]
          omega
        rw [ih (i + 54) _ hs']
        have htk : (s.take i ++ s.drop (i + 1)).take (i + 54) =
            s.take i ++ (s.drop (i + 1)).take 54 := by
          rw [List.take_append_eq_append_take, List.take_take]
          congr 1
          · congr 1; omega
          · congr 1; simp only [List.length_take]; omega
        have hdr : (s.take i ++ s.drop (i + 1)).drop (i + 54) =
            (s.drop (i + 1)).drop 54 := by
          rw [List.drop_append_eq_append_drop]
          have h1 : (s.take i).drop (i + 54) = [] := by
            apply List.drop_eq_nil_of_le
            simp only [List.length_take]; omega
          rw [h1, List.nil_append]
          congr 1
          simp only [List.length_take]; omega
        rw [htk, hdr, List.append_assoc]
      · have hget : ¬(s[i]? = some ' ') := by
          rw [List.getElem?_eq_getElem h]
          simp only [Option.some.injEq]
          exact hsp
        rw [if_neg hsp, if_neg hget]
        rw [ih (i + 54) s (by omega)]
        have htk : s.take (i + 54) = s.take i ++ s[i] :: (s.drop (i + 1)).take 53 := by
          rw [List.take_add, hcons]
          rfl
        have hdr : s.drop (i + 54) = (s.drop (i + 1)).drop 53 := by
          rw [List.drop_drop]
        rw [htk, hdr, List.append_assoc, List.cons_append]
    · rw [if_neg h]
      have hlen : s.length ≤ i := by omega
      rw [List.take_of_length_le hlen, List.drop_eq_nil_of_le hlen]
      simp [rswSpecGo]

/-- C7 — the normalizer is the identity on strings shorter than 54
characters, and on all strings it removes a space, when one is present,
at every 54th position of the progressively shortened string
(`rswSpec`), scanning left to right. -/
theorem spardabank_c7 (s : String) :
    (s.length < 54 → remove_superfluous_reference_whitespace s = s) ∧
    (remove_superfluous_reference_whitespace s).data = rswSpec s.data := by
  constructor
  · intro h
    obtain ⟨d⟩ := s
    simp only [String.length_mk] at h
    show String.mk (rswLoop (d.length + 1) 53 d) = String.mk d
    rw [rswLoop, if_neg (by omega)]
  · show (String.mk (rswLoop (s.data.length + 1) 53 s.data)).data = rswSpec s.data
    rw [rswLoop_eq (s.data.length + 1) 53 s.data (by omega)]
    rfl

/-- C7 at a concrete input: the normalizer leaves a short string
unchanged. -/
theorem spardabank_c7_witness :
    remove_superfluous_reference_whitespace "short reference" = "short reference" :=
  (spardabank_c7 "short reference").1 (by decide)

/-! ### Row filtering (claim C8) -/

/-- C8 — a data row whose booking-date column equals the
not-yet-executed marker is excluded from the transaction sequence, and
the remaining rows appear in file order (the output is a sublist of the
input containing exactly the non-marker rows). -/
theorem spardabank_c8 (rows : List Row) :
    List.Sublist (split_records rows) rows ∧
    ∀ row, row ∈ split_records rows ↔ row ∈ rows ∧ row.buchungstag ≠ notExecutedMarker := by
  constructor
  · exact List.filter_sublist rows
  · intro row
    simp [split_records]

/-! ### The transaction-type suffix rule (claim C5) -/

/-- Of two suffixes of the same list, the shorter is the longer one with
its extra leading elements dropped. -/
theorem suffix_eq_drop_of_suffix {l₁ l₂ v : List Char} (h1 : l₁ <:+ v) (h2 : l₂ <:+ v)
    (hle : l₁.length ≤ l₂.length) : l₁ = l₂.drop (l₂.length - l₁.length) := by
  obtain ⟨t1, ht1⟩ := h1
  obtain ⟨t2, ht2⟩ := h2
  have hv : t1 ++ l₁ = t2 ++ l₂ := by rw [ht1, ht2]
  have hlen : t1.length + l₁.length = t2.length + l₂.length := by
    have h := congrArg List.length hv
    simpa using h
  have key : t2.length + (l₂.length - l₁.length) = t1.length := by omega
  calc l₁ = (t1 ++ l₁).drop t1.length := by rw [List.drop_left]
    _ = (t2 ++ l₂).drop (t2.length + (l₂.length - l₁.length)) := by rw [hv, key]
    _ = l₂.drop (l₂.length - l₁.length) := by
        rw [List.drop_append_eq_append_drop]
        rw [List.drop_eq_nil_of_le (by omega), List.nil_append]
        congr 1
        omega

/-- The cons unfolding of the suffix loop. -/
theorem pdfSuffixLoop_cons (value : List Char) (sfx : String) (rest : List String) :
    pdfSuffixLoop value (sfx :: rest) =
      if sfx.data.isSuffixOf value then
        some ("", [("recipient", String.mk (value.take (value.length - sfx.length))),
                   ("type", sfx)])
      else pdfSuffixLoop value rest := rfl

/-- C5 — when the default segment ends with one of the three
transaction-type labels, the sub-parser returns the empty string as the
residual default value, the entire prefix before the suffix as
`recipient`, and the label as `type`. -/
theorem spardabank_c5 (v sfx : String) (hmem : sfx ∈ txnTypeSuffixes)
    (hsuf : sfx.data <:+ v.data) :
    parse_default_field v =
      ("", [("recipient", String.mk (v.data.take (v.data.length - sfx.length))),
            ("type", sfx)]) := by
  have hb : sfx.data.isSuffixOf v.data = true := List.isSuffixOf_iff_suffix.mpr hsuf
  simp only [txnTypeSuffixes, List.mem_cons, List.not_mem_nil, or_false] at hmem
  rcases hmem with h | h | h
  · subst h
    rw [parse_default_field, txnTypeSuffixes, pdfSuffixLoop_cons, if_pos hb]
  · subst h
    have hno : ¬("SEPA-ÜBERWEISUNG".data.isSuffixOf v.data = true) := by
      intro hb1
      rw [List.isSuffixOf_iff_suffix] at hb1
      have h := suffix_eq_drop_of_suffix hb1 hsuf (by decide)
      simp at h
    rw [parse_default_field, txnTypeSuffixes, pdfSuffixLoop_cons, if_neg hno, pdfSuffixLoop_cons, if_pos hb]
  · subst h
    have hno1 : ¬("SEPA-ÜBERWEISUNG".data.isSuffixOf v.data = true) := by
      intro hb1
      rw [List.isSuffixOf_iff_suffix] at hb1
      have h := suffix_eq_drop_of_suffix hb1 hsuf (by decide)
      simp at h
    have hno2 : ¬("SEPA-LOHN/GEHALT".data.isSuffixOf v.data = true) := by
      intro hb1
      rw [List.isSuffixOf_iff_suffix] at hb1
      have h := suffix_eq_drop_of_suffix hb1 hsuf (by decide)
      simp at h
    rw [parse_default_field, txnTypeSuffixes, pdfSuffixLoop_cons, if_neg hno1, pdfSuffixLoop_cons, if_neg hno2,
      pdfSuffixLoop_cons, if_pos hb]

/-- C5 at a concrete input. -/
theorem spardabank_c5_witness :
    parse_default_field "Max Mustermann SEPA-LOHN/GEHALT" =
      ("", [("recipient", "Max Mustermann "), ("type", "SEPA-LOHN/GEHALT")]) :=
  (spardabank_c5 "Max Mustermann SEPA-LOHN/GEHALT" "SEPA-LOHN/GEHALT"
    (by decide) (by decide)).trans (by decide)


/-! ### The tokenizer's default segment (claims C4 and C10) -/

/-- Whenever the suffix loop fires, it returns an empty residual with a
`recipient`/`type` field pair. -/
theorem pdfSuffixLoop_some (value : List Char) (l : List String)
    (r : String × List (String × String)) (h : pdfSuffixLoop value l = some r) :
    ∃ x sfx, r = ("", [("recipient", x), ("type", sfx)]) := by
  induction l with
  | nil => simp [pdfSuffixLoop] at h
  | cons sfx rest ih =>
    rw [pdfSuffixLoop_cons] at h
    by_cases hs : sfx.data.isSuffixOf value = true
    · rw [if_pos hs] at h
      injection h with h2
      exact ⟨_, _, h2.symm⟩
    · rw [if_neg hs] at h
      exact ih h

/-- Branch equation: the suffix loop fired. -/
theorem parse_default_field_of_suffix (v : String) (r : String × List (String × String))
    (h : pdfSuffixLoop v.data txnTypeSuffixes = some r) : parse_default_field v = r := by
  rw [parse_default_field, h]

/-- Branch equation: the card pattern matched. -/
theorem parse_default_field_of_card (v : String) (b e : Nat) (caps : Caps)
    (h1 : pdfSuffixLoop v.data txnTypeSuffixes = none)
    (h2 : reSearch cardRE v.data = some (b, e, caps)) :
    parse_default_field v = (String.mk (v.data.take b), cardGroupItems v.data caps) := by
  rw [parse_default_field, h1, h2]

/-- Branch equation: neither rule fired. -/
theorem parse_default_field_of_plain (v : String)
    (h1 : pdfSuffixLoop v.data txnTypeSuffixes = none)
    (h2 : reSearch cardRE v.data = none) : parse_default_field v = (v, []) := by
  rw [parse_default_field, h1, h2]

/-- The keys produced by the card branch are the ten group names. -/
theorem cardGroupItems_keys (s : List Char) (caps : Caps) :
    (cardGroupItems s caps).map Prod.fst = cardGroupNames := by
  rw [cardGroupItems, List.map_map]
  have h : (Prod.fst ∘ fun p : Nat × String => (p.2, capStr s caps (p.1 + 1))) = Prod.snd := by
    funext p
    rfl
  rw [h]
  exact List.enumFrom_map_snd 0 cardGroupNames

/-- No derived field of the default-segment sub-parser is named
`default`. -/
theorem pdf_keys (v : String) (p : String × String) (hp : p ∈ (parse_default_field v).2) :
    p.1 ≠ "default" := by
  have hall : ∀ q ∈ cardGroupNames, q ≠ "default" := by decide
  rcases hloop : pdfSuffixLoop v.data txnTypeSuffixes with _ | r
  · rcases hsearch : reSearch cardRE v.data with _ | ⟨b, e, caps⟩
    · rw [parse_default_field_of_plain v hloop hsearch] at hp
      simp at hp
    · rw [parse_default_field_of_card v b e caps hloop hsearch] at hp
      have hk : p.1 ∈ (cardGroupItems v.data caps).map Prod.fst := List.mem_map_of_mem _ hp
      rw [cardGroupItems_keys] at hk
      exact hall _ hk
  · rw [parse_default_field_of_suffix v r hloop] at hp
    obtain ⟨x, sfx, hr⟩ := pdfSuffixLoop_some _ _ _ hloop
    subst hr
    simp only [List.mem_cons, List.not_mem_nil, or_false] at hp
    rcases hp with rfl | rfl
    · show "recipient" ≠ "default"
      decide
    · show "type" ≠ "default"
      decide

/-- If the sub-parser derives no fields, it leaves the value unchanged. -/
theorem pdf_snd_nil (v : String) (h : (parse_default_field v).2 = []) :
    (parse_default_field v).1 = v := by
  rcases hloop : pdfSuffixLoop v.data txnTypeSuffixes with _ | r
  · rcases hsearch : reSearch cardRE v.data with _ | ⟨b, e, caps⟩
    · rw [parse_default_field_of_plain v hloop hsearch]
    · exfalso
      rw [parse_default_field_of_card v b e caps hloop hsearch] at h
      have h2 : cardGroupItems v.data caps = [] := h
      have hlen := congrArg List.length (cardGroupItems_keys v.data caps)
      rw [List.length_map, h2] at hlen
      simp [cardGroupNames] at hlen
  · exfalso
    rw [parse_default_field_of_suffix v r hloop] at h
    obtain ⟨x, sfx, hr⟩ := pdfSuffixLoop_some _ _ _ hloop
    subst hr
    simp at h

/-- The whole-string slice. -/
theorem sliceL_full (l : List Char) : sliceL l 0 l.length = l := by
  simp [sliceL]

/-- The final segment of the generator loop. -/
theorem prfGo_nil_eq (ref : List Char) (field : String) (start : Nat) :
    prfGo ref field start [] =
      if field = "default" then
        (parse_default_field (String.mk (pyStripL (sliceL ref start ref.length)))).2 ++
          [(field, (parse_default_field (String.mk (pyStripL (sliceL ref start ref.length)))).1)]
      else [(field, String.mk (pyStripL (sliceL ref start ref.length)))] := rfl

/-- One match step of the generator loop. -/
theorem prfGo_cons_eq (ref : List Char) (field : String) (start : Nat) (m : TagMatch)
    (ms : List TagMatch) :
    prfGo ref field start (m :: ms) =
      (if field = "default" then
        (parse_default_field (String.mk (pyStripL (sliceL ref start m.mstart)))).2 ++
          [(field, (parse_default_field (String.mk (pyStripL (sliceL ref start m.mstart)))).1)]
      else [(field, String.mk (pyStripL (sliceL ref start m.mstart)))]) ++
      prfGo ref m.tag m.mend ms := rfl

/-- C4 (amended) — a reference string without tag-marker matches whose
trimmed text triggers neither rule of the default-segment sub-parser
tokenizes to the single pair `(default, trimmed string)`; when a rule
does trigger, its derived pairs are emitted as well (refuting the claim
as stated, see the counterexample). -/
theorem spardabank_c4 (s : String) (h1 : finditerTag s.data = [])
    (h2 : (parse_default_field (pyStrip s)).2 = []) :
    parse_reference_fields s = [("default", pyStrip s)] := by
  rw [parse_reference_fields, h1, prfGo_nil_eq, if_pos rfl]
  have hval : String.mk (pyStripL (sliceL s.data 0 s.data.length)) = pyStrip s := by
    rw [sliceL_full]
    rfl
  rw [hval, h2, pdf_snd_nil _ h2, List.nil_append]

/-- C4 as stated is refuted by `"A SEPA-ÜBERWEISUNG"`: the string
contains no tag-marker occurrence, yet the tokenizer emits the
sub-parser's `recipient`/`type` pairs and an empty `default` value
instead of exactly one `(default, whole trimmed string)` pair. -/
theorem spardabank_c4_counterexample :
    finditerTag "A SEPA-ÜBERWEISUNG".data = [] ∧
    parse_reference_fields "A SEPA-ÜBERWEISUNG" ≠
      [("default", pyStrip "A SEPA-ÜBERWEISUNG")] := by
  constructor
  · decide
  · decide

/-- C4 (amended) at a concrete input. -/
theorem spardabank_c4_witness :
    parse_reference_fields "hello world" = [("default", "hello world")] := by
  have h := spardabank_c4 "hello world" (by decide) (by decide)
  rw [h]
  decide

/-- A tag capture is three or four uppercase letters and a `'+'` — in
particular never the sentinel `default`. -/
theorem tagMatchAt_tag_ne (s : List Char) (p : Nat) (m : TagMatch)
    (h : tagMatchAt s p = some m) : m.tag ≠ "default" := by
  have hlen7 : ("default" : String).length = 7 := rfl
  unfold tagMatchAt at h
  split at h
  · split at h
    · split at h
      · split at h
        · split at h
          · injection h with h2
            subst h2
            intro hc
            have hl := congrArg String.length hc
            rw [hlen7] at hl
            simp at hl
          · exact absurd h (by simp)
        · split at h
          · injection h with h2
            subst h2
            intro hc
            have hl := congrArg String.length hc
            rw [hlen7] at hl
            simp at hl
          · exact absurd h (by simp)
      · exact absurd h (by simp)
    · exact absurd h (by simp)
  · exact absurd h (by simp)

/-- Cons unfolding of the scan loop. -/
theorem findNextTagAux_cons (s : List Char) (p : Nat) (c : Char) (rest : List Char) :
    findNextTagAux s p (c :: rest) =
      match tagMatchAt s p with
      | some m => some m
      | none => findNextTagAux s (p + 1) rest := rfl

/-- Every match the scan loop returns comes from `tagMatchAt`. -/
theorem findNextTagAux_sound (s : List Char) :
    ∀ (rem : List Char) (p : Nat) (m : TagMatch),
      findNextTagAux s p rem = some m → ∃ q, tagMatchAt s q = some m := by
  intro rem
  induction rem with
  | nil =>
    intro p m h
    exact ⟨p, h⟩
  | cons c rest ih =>
    intro p m h
    rw [findNextTagAux_cons] at h
    cases hm : tagMatchAt s p with
    | some m2 =>
      rw [hm] at h
      injection h with h2
      subst h2
      exact ⟨p, hm⟩
    | none =>
      rw [hm] at h
      exact ih (p + 1) m h

/-- Every match `finditer` yields comes from `tagMatchAt`. -/
theorem finditerTagFrom_sound (s : List Char) :
    ∀ (fuel p : Nat) (m : TagMatch),
      m ∈ finditerTagFrom s fuel p → ∃ q, tagMatchAt s q = some m := by
  intro fuel
  induction fuel with
  | zero =>
    intro p m h
    simp [finditerTagFrom] at h
  | succ fuel ih =>
    intro p m h
    rw [show finditerTagFrom s (fuel + 1) p =
        (match findNextTagFrom s p with
         | some m2 => m2 :: finditerTagFrom s fuel (max (p + 1) m2.mend)
         | none => []) from rfl] at h
    cases hf : findNextTagFrom s p with
    | none =>
      rw [hf] at h
      simp at h
    | some m2 =>
      rw [hf] at h
      rcases List.mem_cons.mp h with rfl | h2
      · rw [findNextTagFrom] at hf
        exact findNextTagAux_sound s _ _ _ hf
      · exact ih _ _ h2

/-- The count of `default`-keyed pairs produced by the generator loop:
one if the current segment is still the `default` one, zero otherwise
(provided no tag capture reads `default`). -/
theorem prfGo_count (ref : List Char) :
    ∀ (ms : List TagMatch) (field : String) (start : Nat),
      (∀ m ∈ ms, m.tag ≠ "default") →
      ((prfGo ref field start ms).countP (fun q => q.1 == "default")) =
        if field = "default" then 1 else 0 := by
  intro ms
  induction ms with
  | nil =>
    intro field start _
    rw [prfGo_nil_eq]
    by_cases hf : field = "default"
    · rw [if_pos hf, if_pos hf, List.countP_append]
      have h0 : ((parse_default_field
          (String.mk (pyStripL (sliceL ref start ref.length)))).2).countP
          (fun q => q.1 == "default") = 0 := by
        rw [List.countP_eq_zero]
        intro a ha
        simp only [beq_iff_eq]
        exact pdf_keys _ a ha
      rw [h0, List.countP_cons, List.countP_nil]
      simp [hf]
    · rw [if_neg hf, if_neg hf, List.countP_cons, List.countP_nil]
      simp [hf]
  | cons m ms ih =>
    intro field start hms
    rw [prfGo_cons_eq, List.countP_append]
    have htail : ((prfGo ref m.tag m.mend ms).countP (fun q => q.1 == "default")) = 0 := by
      rw [ih m.tag m.mend (fun m2 hm2 => hms m2 (List.mem_cons_of_mem m hm2))]
      rw [if_neg (hms m (List.mem_cons_self m ms))]
    rw [htail]
    by_cases hf : field = "default"
    · rw [if_pos hf, if_pos hf, List.countP_append]
      have h0 : ((parse_default_field
          (String.mk (pyStripL (sliceL ref start m.mstart)))).2).countP
          (fun q => q.1 == "default") = 0 := by
        rw [List.countP_eq_zero]
        intro a ha
        simp only [beq_iff_eq]
        exact pdf_keys _ a ha
      rw [h0, List.countP_cons, List.countP_nil]
      simp [hf]
    · rw [if_neg hf, if_neg hf, List.countP_cons, List.countP_nil]
      simp [hf]

/-- C10 — for every input string the tokenizer yields exactly one pair
whose tag is the sentinel `default`: tag captures are 3–4 uppercase
letters plus `'+'` and the sub-parser's derived names never include
`default`. -/
theorem spardabank_c10 (s : String) :
    (parse_reference_fields s).countP (fun q => q.1 == "default") = 1 := by
  rw [parse_reference_fields]
  have hms : ∀ m ∈ finditerTag s.data, m.tag ≠ "default" := by
    intro m hm
    rw [finditerTag] at hm
    obtain ⟨q, hq⟩ := finditerTagFrom_sound s.data _ _ m hm
    exact tagMatchAt_tag_ne s.data q m hq
  rw [prfGo_count s.data (finditerTag s.data) "default" 0 hms, if_pos rfl]

/-! ### `parse_record` (claims C1, C2, C3, C6, C9) -/

/-- A produced record means all three column parses succeeded. -/
theorem parse_record_isSome_parts (reg : BankRegistry) (it : Option String) (row : Row)
    (h : (parse_record reg it row).isSome = true) :
    ∃ bd vd amt, strptimeDMY row.buchungstag = some bd ∧
      strptimeDMY row.wertstellungstag = some vd ∧ parse_decimal row.umsatz = some amt := by
  cases hb : strptimeDMY row.buchungstag with
  | none =>
    exfalso
    rw [parse_record, hb] at h
    exact Bool.noConfusion h
  | some bd =>
    cases hw : strptimeDMY row.wertstellungstag with
    | none =>
      exfalso
      rw [parse_record, hb, hw] at h
      exact Bool.noConfusion h
    | some vd =>
      cases ha : parse_decimal row.umsatz with
      | none =>
        exfalso
        rw [parse_record, hb, hw, ha] at h
        exact Bool.noConfusion h
      | some amt => exact ⟨bd, vd, amt, rfl, rfl, rfl⟩

/-- Explicit form of a successfully parsed record: each field written
out in terms of the decoded reference fields of the row. -/
theorem parse_record_eq (reg : BankRegistry) (it : Option String) (row : Row)
    (bd vd : DateTime) (amt : PyDecimal)
    (hb : strptimeDMY row.buchungstag = some bd)
    (hw : strptimeDMY row.wertstellungstag = some vd)
    (ha : parse_decimal row.umsatz = some amt) :
    parse_record reg it row = some
      { date := vd
        date_user :=
          match getTruthy (fieldsOf row) "card_payment_datetime" with
          | some v => (match strptimeCard v with | some dt => dt | none => bd)
          | none => bd
        memo :=
          match getTruthy (fieldsOf row) "card_payment_reference" with
          | some v => v
          | none =>
            match getTruthy (fieldsOf row) "SVWZ+" with
            | some v => v
            | none => referenceOf row
        amount := amt
        currency := row.waehrung
        id := fmtYMD vd ++ sha1Hex (utf8Bytes
          (referenceOf row ++ " " ++ pyDecimalStr amt ++ " " ++ row.waehrung).data)
        bank_account_to := bankAccountTo reg (fieldsOf row)
        check_no := getTruthy (fieldsOf row) "EREF+"
        trntype :=
          match (match getTruthy (fieldsOf row) "type" with
            | some v => find_transaction_type v
            | none => it) with
          | none => some (if pyDecimalPos amt then "CREDIT" else "DEBIT")
          | some t => some t
        payee := getTruthy (fieldsOf row) "recipient" } := by
  rw [parse_record, hb, hw, ha]
  rfl

/-- C1 (amended) — the memo override loop assigns the REF (`SVWZ+`)
value first and the `card_payment_reference` value second, so a
non-empty `card_payment_reference` wins over REF; REF applies only when
`card_payment_reference` is absent or empty, and without either the
memo stays the normalized purpose text. -/
theorem spardabank_c1 (reg : BankRegistry) (it : Option String) (row : Row)
    (h : (parse_record reg it row).isSome = true) :
    (parse_record reg it row).map StatementLine.memo =
      some (match getTruthy (fieldsOf row) "card_payment_reference" with
        | some v => v
        | none =>
          match getTruthy (fieldsOf row) "SVWZ+" with
          | some v => v
          | none => referenceOf row) := by
  obtain ⟨bd, vd, amt, hb, hw, ha⟩ := parse_record_isSome_parts reg it row h
  rw [parse_record_eq reg it row bd vd amt hb hw ha]
  rfl

/-- C1 as stated is refuted by `c1Row`: its reference decodes both a
REF (`SVWZ+`) value `"Zweck"` and a card-payment reference `"K "`, and
the memo is the card-payment reference, not the REF value. -/
theorem spardabank_c1_counterexample :
    getTruthy (fieldsOf c1Row) "SVWZ+" = some "Zweck" ∧
    getTruthy (fieldsOf c1Row) "card_payment_reference" = some "K " ∧
    (parse_record noRegistry none c1Row).map StatementLine.memo ≠ some "Zweck" := by
  refine ⟨by decide, by decide, by decide⟩

/-- C1 (amended) at a concrete input. -/
theorem spardabank_c1_witness :
    (parse_record noRegistry none c1Row).map StatementLine.memo = some "K " := by
  have h := spardabank_c1 noRegistry none c1Row (by decide)
  rw [h]
  decide

/-- C2 (amended) — the user-facing date starts as the row's *booking*
date; a decodable `card_payment_datetime` overrides it, and on a
`strptime` failure the booking date is kept. -/
theorem spardabank_c2 (reg : BankRegistry) (it : Option String) (row : Row)
    (h : (parse_record reg it row).isSome = true) :
    (parse_record reg it row).map StatementLine.date_user =
      (strptimeDMY row.buchungstag).map (fun bd =>
        match getTruthy (fieldsOf row) "card_payment_datetime" with
        | some v => (match strptimeCard v with | some dt => dt | none => bd)
        | none => bd) := by
  obtain ⟨bd, vd, amt, hb, hw, ha⟩ := parse_record_isSome_parts reg it row h
  rw [parse_record_eq reg it row bd vd amt hb hw ha, hb]
  rfl

/-- C2 as stated is refuted by `c2Row`: its value date is 02.01.2024
and it has no card-payment datetime, yet the user-facing date is not
the value date (it is the booking date 01.01.2024). -/
theorem spardabank_c2_counterexample :
    (parse_record noRegistry none c2Row).map StatementLine.date =
      some ⟨2024, 1, 2, 0, 0, 0⟩ ∧
    getTruthy (fieldsOf c2Row) "card_payment_datetime" = none ∧
    (parse_record noRegistry none c2Row).map StatementLine.date_user ≠
      some ⟨2024, 1, 2, 0, 0, 0⟩ := by
  refine ⟨by decide, by decide, by decide⟩

/-- C2 (amended) at a concrete input: the booking date is kept. -/
theorem spardabank_c2_witness :
    (parse_record noRegistry none c2Row).map StatementLine.date_user =
      some ⟨2024, 1, 1, 0, 0, 0⟩ := by
  have h := spardabank_c2 noRegistry none c2Row (by decide)
  rw [h]
  decide

/-- C3 (amended) — the identifier is the value date as `YYYYMMDD`
followed by the SHA-1 hex digest of the UTF-8 bytes of the *un-trimmed*
pre-override memo, the amount's decimal string form and the currency
symbol joined by single spaces; consequently rows agreeing on
(value date, pre-override memo, amount, currency) get identical
identifiers. -/
theorem spardabank_c3 (reg : BankRegistry) (it : Option String) (row : Row)
    (h : (parse_record reg it row).isSome = true) :
    ((parse_record reg it row).map StatementLine.id =
      (strptimeDMY row.wertstellungstag).bind (fun vd =>
        (parse_decimal row.umsatz).map (fun amt =>
          fmtYMD vd ++ sha1Hex (utf8Bytes
            (referenceOf row ++ " " ++ pyDecimalStr amt ++ " " ++ row.waehrung).data)))) ∧
    (∀ row2, (parse_record reg it row2).isSome = true →
      strptimeDMY row2.wertstellungstag = strptimeDMY row.wertstellungstag →
      referenceOf row2 = referenceOf row →
      parse_decimal row2.umsatz = parse_decimal row.umsatz →
      row2.waehrung = row.waehrung →
      (parse_record reg it row2).map StatementLine.id =
        (parse_record reg it row).map StatementLine.id) := by
  obtain ⟨bd, vd, amt, hb, hw, ha⟩ := parse_record_isSome_parts reg it row h
  constructor
  · rw [parse_record_eq reg it row bd vd amt hb hw ha, hw, ha]
    rfl
  · intro row2 h2 hweq hreq haeq hceq
    obtain ⟨bd2, vd2, amt2, hb2, hw2, ha2⟩ := parse_record_isSome_parts reg it row2 h2
    have hvd : vd2 = vd := by
      rw [hw2, hw] at hweq
      injection hweq
    have hamt : amt2 = amt := by
      rw [ha2, ha] at haeq
      injection haeq
    rw [parse_record_eq reg it row2 bd2 vd2 amt2 hb2 hw2 ha2,
      parse_record_eq reg it row bd vd amt hb hw ha]
    show some (fmtYMD vd2 ++ sha1Hex (utf8Bytes
        (referenceOf row2 ++ " " ++ pyDecimalStr amt2 ++ " " ++ row2.waehrung).data)) =
      some (fmtYMD vd ++ sha1Hex (utf8Bytes
        (referenceOf row ++ " " ++ pyDecimalStr amt ++ " " ++ row.waehrung).data))
    rw [hvd, hamt, hreq, hceq]

/-- C3 as stated is refuted by `c3Row`, whose pre-override memo `" x"`
carries a leading space: the produced identifier differs from the one
computed from the *trimmed* memo. -/
theorem spardabank_c3_counterexample :
    strptimeDMY c3Row.wertstellungstag = some ⟨2024, 1, 2, 0, 0, 0⟩ ∧
    referenceOf c3Row = " x" ∧
    parse_decimal c3Row.umsatz = some ⟨false, 100, -2⟩ ∧
    c3Row.waehrung = "EUR" ∧
    (parse_record noRegistry none c3Row).map StatementLine.id ≠
      some (spec_identifier ⟨2024, 1, 2, 0, 0, 0⟩ " x" ⟨false, 100, -2⟩ "EUR") := by
  refine ⟨by decide, by decide, by decide, by decide, by decide⟩

/-- C3 (amended) at concrete inputs: two rows differing only in the
booking date produce the same identifier. -/
theorem spardabank_c3_witness :
    (parse_record noRegistry none c3bRow).map StatementLine.id =
      (parse_record noRegistry none c3Row).map StatementLine.id :=
  (spardabank_c3 noRegistry none c3Row (by decide)).2 c3bRow
    (by decide) (by decide) (by decide) (by decide) (by decide)

/-- C6 — field-level failures do not reject the row: whenever the three
column parses succeed the record is produced; an IBAN field whose
(space-stripped) value the banking library rejects merely leaves the
counterparty account unset, and a card-payment datetime that fails
`strptime` merely leaves the user-facing date at the booking date. -/
theorem spardabank_c6 (reg : BankRegistry) (it : Option String) (row : Row) (bd : DateTime)
    (h1 : strptimeDMY row.buchungstag = some bd)
    (h2 : (strptimeDMY row.wertstellungstag).isSome = true)
    (h3 : (parse_decimal row.umsatz).isSome = true) :
    (parse_record reg it row).isSome = true ∧
    (∀ v, getTruthy (fieldsOf row) "IBAN+" = some v →
      reg.ibanParse (removeSpaces v) = none →
      (parse_record reg it row).map StatementLine.bank_account_to = some none) ∧
    (∀ v, getTruthy (fieldsOf row) "card_payment_datetime" = some v →
      strptimeCard v = none →
      (parse_record reg it row).map StatementLine.date_user = some bd) := by
  obtain ⟨vd, hw⟩ := Option.isSome_iff_exists.mp h2
  obtain ⟨amt, ha⟩ := Option.isSome_iff_exists.mp h3
  have hrec := parse_record_eq reg it row bd vd amt h1 hw ha
  refine ⟨by rw [hrec]; rfl, ?_, ?_⟩
  · intro v hv hfail
    rw [hrec]
    show some (bankAccountTo reg (fieldsOf row)) = some none
    rw [bankAccountTo]
    simp only [hv, hfail]
  · intro v hv hfail
    rw [hrec]
    show some (match getTruthy (fieldsOf row) "card_payment_datetime" with
      | some v => (match strptimeCard v with | some dt => dt | none => bd)
      | none => bd) = some bd
    simp only [hv, hfail]

/-- C6 at a concrete input: `c6Row` has an IBAN field the (always
failing) registry rejects and a card datetime `99.99.2024 10.20.30`
that fails `strptime`; the record is still produced, with no
counterparty account and the booking date as user-facing date. -/
theorem spardabank_c6_witness :
    (parse_record noRegistry none c6Row).isSome = true ∧
    (parse_record noRegistry none c6Row).map StatementLine.bank_account_to = some none ∧
    (parse_record noRegistry none c6Row).map StatementLine.date_user =
      some ⟨2024, 1, 1, 0, 0, 0⟩ := by
  have h := spardabank_c6 noRegistry none c6Row ⟨2024, 1, 1, 0, 0, 0⟩
    (by decide) (by decide) (by decide)
  exact ⟨h.1, h.2.1 "DE99" (by decide) rfl, h.2.2 "99.99.2024 10.20.30" (by decide) (by decide)⟩

/-- C9 — with the statement line's initial transaction type unset (the
spec's model of the externally-constructed line), a row whose decoded
fields carry no `type` value matching one of the five markers falls
back to `CREDIT` for amounts `> 0` and `DEBIT` otherwise, including
amount exactly zero. -/
theorem spardabank_c9 (reg : BankRegistry) (row : Row)
    (h : (parse_record reg none row).isSome = true)
    (ht : Option.all (fun v => (find_transaction_type v).isNone)
      (getTruthy (fieldsOf row) "type") = true) :
    (parse_record reg none row).map StatementLine.trntype =
      (parse_decimal row.umsatz).map
        (fun amt => some (if pyDecimalPos amt then "CREDIT" else "DEBIT")) := by
  obtain ⟨bd, vd, amt, hb, hw, ha⟩ := parse_record_isSome_parts reg none row h
  rw [parse_record_eq reg none row bd vd amt hb hw ha, ha]
  cases hty : getTruthy (fieldsOf row) "type" with
  | none => rfl
  | some v =>
    rw [hty] at ht
    have hnone : find_transaction_type v = none := by
      have hn : (find_transaction_type v).isNone = true := ht
      exact Option.isNone_iff_eq_none.mp hn
    simp only [hnone]
    rfl

/-- C9 at concrete inputs: a marker-less row with positive amount
classifies `CREDIT`; with amount exactly zero it classifies `DEBIT`. -/
theorem spardabank_c9_witness :
    (parse_record noRegistry none c9aRow).map StatementLine.trntype = some (some "CREDIT") ∧
    (parse_record noRegistry none c9bRow).map StatementLine.trntype = some (some "DEBIT") := by
  constructor
  · have h := spardabank_c9 noRegistry c9aRow (by decide) (by decide)
    rw [h]
    decide
  · have h := spardabank_c9 noRegistry c9bRow (by decide) (by decide)
    rw [h]
    decide
